import Mathlib

/-!
# Device variant record: `core/embed/lib/device_variant.c`

The module keeps three file-scope statics (`device_variant_color`,
`device_variant_btconly`, `device_variant_ok`).  `device_variant_init` reads one OTP
block through `flash_otp_read` and, when the read succeeds and the first byte is `0x01`,
decodes bytes 1 and 2 into the statics.  Three getters return the statics.

Embedding:
* the statics are the fields of `VariantState`; every C function is a function on that
  state, the getters returning their value together with the (untouched) state;
* `flash_otp_read` belongs to the flash driver, so it is an argument: a function from the
  request (block, offset, length) to the returned `secbool` and the buffer contents;
  where the number of driver calls matters the driver is a device with its own state,
  which every call changes (`device_variant_init_on`);
* the local array `data` is the list of bytes the driver left in it; reading `data[i]`
  past its end has no defined result and is `none`;
* `sectrue`, `FLASH_OTP_BLOCK_SIZE` and `FLASH_OTP_BLOCK_DEVICE_VARIANT` come from headers
  outside this module and are the fields of `Platform`.
-/

namespace DeviceVariant

/-! ## Data model -/

/-- C `uint8_t`. -/
abbrev uint8_t := Fin 256

/-- C `secbool`, a 32-bit unsigned value; only ever compared for equality here. -/
abbrev secbool := Nat

/-- Constants used by `device_variant.c` and defined in `secbool.h` / `flash.h`. -/
structure Platform where
  sectrue : secbool
  FLASH_OTP_BLOCK_SIZE : Nat
  FLASH_OTP_BLOCK_DEVICE_VARIANT : Nat

/-- What one call of `flash_otp_read` hands back: its return value and the contents of
the caller's buffer when it returns. -/
structure OtpRead where
  result : secbool
  data : List uint8_t

/-- The driver function `flash_otp_read(block, offset, data, datalen)` as its caller sees
it: the request goes in, the outcome comes out. -/
abbrev OtpReader := Nat → Nat → Nat → OtpRead

/-- The three file-scope statics of `device_variant.c`. -/
structure VariantState where
  device_variant_color : uint8_t
  device_variant_btconly : Bool
  device_variant_ok : Bool
deriving DecidableEq, Repr

/-- Values given by the static initialisers (`= 0`, `= false`, `= false`). -/
def VariantState.boot : VariantState := ⟨0, false, false⟩

/-! ## Operations -/

/-- C function `device_variant_0x01(data)`: three assignments in source order. -/
def device_variant_0x01 (data : List uint8_t) (s : VariantState) : Option VariantState :=
  match (data[1]? : Option uint8_t) with
  | none => none
  | some c =>
    let s1 : VariantState := { s with device_variant_color := c }
    match (data[2]? : Option uint8_t) with
    | none => none
    | some b =>
      let s2 : VariantState := { s1 with device_variant_btconly := decide (b = 1) }
      some { s2 with device_variant_ok := true }

/-- C function `device_variant_init()`: one `flash_otp_read`, then the `switch` on
`data[0]` guarded by `sectrue == result`. -/
def device_variant_init (P : Platform) (flash_otp_read : OtpReader) (s : VariantState) :
    Option VariantState :=
  let r := flash_otp_read P.FLASH_OTP_BLOCK_DEVICE_VARIANT 0 P.FLASH_OTP_BLOCK_SIZE
  if P.sectrue = r.result then
    match r.data[0]? with
    | none => none
    | some tag => if tag = 0x01 then device_variant_0x01 r.data s else some s
  else some s

/-- C function `device_variant_get_color()`. -/
def device_variant_get_color (s : VariantState) : uint8_t × VariantState :=
  (s.device_variant_color, s)

/-- C function `device_variant_get_btconly()`. -/
def device_variant_get_btconly (s : VariantState) : Bool × VariantState :=
  (s.device_variant_btconly, s)

/-- C function `device_variant_present()`. -/
def device_variant_present (s : VariantState) : Bool × VariantState :=
  (s.device_variant_ok, s)

/-! ## Call sequences -/

/-- One call into the module's public interface (`device_variant.h`); an init call
carries the driver behaviour it meets. -/
inductive Call where
  | device_variant_init (flash_otp_read : OtpReader)
  | device_variant_present
  | device_variant_get_color
  | device_variant_get_btconly

/-- State after one call. -/
def Call.exec (P : Platform) : Call → VariantState → Option VariantState
  | .device_variant_init rd, s => DeviceVariant.device_variant_init P rd s
  | .device_variant_present, s => some (DeviceVariant.device_variant_present s).2
  | .device_variant_get_color, s => some (DeviceVariant.device_variant_get_color s).2
  | .device_variant_get_btconly, s => some (DeviceVariant.device_variant_get_btconly s).2

/-- State after a sequence of calls, first call first. -/
def run (P : Platform) : List Call → VariantState → Option VariantState
  | [], s => some s
  | c :: cs, s =>
    match c.exec P s with
    | none => none
    | some s1 => run P cs s1

/-- Whether a call is one of the three getters. -/
def Call.isGetter : Call → Bool
  | .device_variant_init _ => false
  | _ => true

/-- The outcome of the read that `device_variant_init` issues against a driver. -/
def variantRead (P : Platform) (flash_otp_read : OtpReader) : OtpRead :=
  flash_otp_read P.FLASH_OTP_BLOCK_DEVICE_VARIANT 0 P.FLASH_OTP_BLOCK_SIZE

/-- A read outcome that makes `device_variant_init` skip decoding: the driver reports
anything but `sectrue`, or the block starts with a byte other than `0x01`. -/
def OtpRead.skipped (P : Platform) (r : OtpRead) : Bool :=
  r.result != P.sectrue ||
    (match r.data[0]? with
     | some tag => tag != 1
     | none => false)

/-- A read outcome that `device_variant_init` decodes: the driver reports `sectrue` and
the block starts with `0x01`. -/
def OtpRead.recognized (P : Platform) (r : OtpRead) : Bool :=
  r.result == P.sectrue && r.data[0]? == some 1

/-- A call that meets no recognised record: a getter, or an init whose read is skipped. -/
def Call.skips (P : Platform) : Call → Bool
  | .device_variant_init rd => (variantRead P rd).skipped P
  | _ => true

/-! ## Instrumented execution -/

/-- One request to the driver: the three scalar arguments of
`flash_otp_read(block, offset, data, datalen)`. -/
structure OtpRequest where
  block : Nat
  offset : Nat
  datalen : Nat
deriving DecidableEq, Repr

/-- The driver function `flash_otp_read` of a device whose state is `σ`: every call
answers from the current state and leaves a new one, so two calls need not answer alike
and every call leaves its mark. -/
abbrev OtpDevice (σ : Type) := σ → Nat → Nat → Nat → OtpRead × σ

/-- C function `device_variant_init()` run against a device with state: the driver state
is threaded through every `flash_otp_read` the body performs and handed back with the
statics.  `device_variant_0x01` receives `data` only and has no driver to call. -/
def device_variant_init_on {σ : Type} (P : Platform) (flash_otp_read : OtpDevice σ)
    (dev : σ) (s : VariantState) : Option VariantState × σ :=
  let answered := flash_otp_read dev P.FLASH_OTP_BLOCK_DEVICE_VARIANT 0 P.FLASH_OTP_BLOCK_SIZE
  let r := answered.1
  let dev1 := answered.2
  if P.sectrue = r.result then
    match r.data[0]? with
    | none => (none, dev1)
    | some tag => if tag = 0x01 then (device_variant_0x01 r.data s, dev1) else (some s, dev1)
  else (some s, dev1)

/-- A device whose state is the list of requests it has received so far: each call is
appended to the list, and the answer may depend on the request and on everything asked
before. -/
def otpRecording (answer : List OtpRequest → OtpRequest → OtpRead) :
    OtpDevice (List OtpRequest) := fun log block offset datalen =>
  (answer log ⟨block, offset, datalen⟩, log ++ [⟨block, offset, datalen⟩])

/-! ## Concrete data used to exercise the theorems -/


/-- A platform with `sectrue = 0xAAAAAAAA`, 32-byte OTP blocks and block number 3. -/
def demoPlatform : Platform := ⟨0xAAAAAAAA, 32, 3⟩

/-- A driver that answers the device-variant request of `P` with `r` and refuses every
other request. -/
def otpServing (P : Platform) (r : OtpRead) : OtpReader := fun block offset datalen =>
  if block = P.FLASH_OTP_BLOCK_DEVICE_VARIANT ∧ offset = 0 ∧ datalen = P.FLASH_OTP_BLOCK_SIZE
  then r else ⟨0, []⟩

/-- A 32-byte block that starts with the given bytes and is zero elsewhere. -/
def block32 (head : List uint8_t) : List uint8_t :=
  (head ++ List.replicate 32 0).take 32

/-- Successful read of the block `[0x01, 0x2A, 0x01, 0, ...]`. -/
def readTeal : OtpRead := ⟨0xAAAAAAAA, block32 [0x01, 0x2A, 0x01]⟩

/-- Successful read of the block `[0x01, 0x00, 0x02, 0, ...]`. -/
def readFlagTwo : OtpRead := ⟨0xAAAAAAAA, block32 [0x01, 0x00, 0x02]⟩

/-- Successful read of the block `[0x01, 0x07, 0x00, 0, ...]`. -/
def readSeven : OtpRead := ⟨0xAAAAAAAA, block32 [0x01, 0x07, 0x00]⟩

/-- Successful read of a block with the unknown tag `0x02`: `[0x02, 0x2A, 0x01, 0, ...]`. -/
def readTagTwo : OtpRead := ⟨0xAAAAAAAA, block32 [0x02, 0x2A, 0x01]⟩

/-- Failed read (`secfalse = 0`) that still left recognisable bytes in the buffer. -/
def readFailed : OtpRead := ⟨0, block32 [0x01, 0x2A, 0x01]⟩

/-- Successful read of a block that agrees with `readTeal` on bytes 0 to 2 and differs
from byte 3 on: `[0x01, 0x2A, 0x01, 0xFF, 0xEE, 0, ...]`. -/
def readTealTail : OtpRead := ⟨0xAAAAAAAA, block32 [0x01, 0x2A, 0x01, 0xFF, 0xEE]⟩

/-- Answers of a device that fails the first request it ever receives and from the second
request on serves the block `[0x01, 0x2A, 0x01, 0, ...]`. -/
def answerSecondTime (log : List OtpRequest) (_req : OtpRequest) : OtpRead :=
  if log.isEmpty then readFailed else readTeal

/-- Answers of a device that serves `[0x02, 0x2A, 0x01, 0, ...]` to the first request and
`[0x01, 0x2A, 0x01, 0, ...]` to every later one or to any other block, offset or length. -/
def answerTagTwoFirst (log : List OtpRequest) (req : OtpRequest) : OtpRead :=
  if log.isEmpty ∧ req = ⟨3, 0, 32⟩ then readTagTwo else readTeal

/-! ## Shared lemmas about a single `device_variant_init` call -/

/-- The outcome named `variantRead` is the read written out in `device_variant_init`. -/
theorem variantRead_eq (P : Platform) (flash_otp_read : OtpReader) :
    variantRead P flash_otp_read
      = flash_otp_read P.FLASH_OTP_BLOCK_DEVICE_VARIANT 0 P.FLASH_OTP_BLOCK_SIZE := rfl

/-- A successful read of a block `0x01, c, b, ...` stores `c`, `b == 1` and `true`. -/
theorem init_of_recognized (P : Platform) (flash_otp_read : OtpReader) (s : VariantState)
    (c b : uint8_t)
    (hres : (variantRead P flash_otp_read).result = P.sectrue)
    (htag : (variantRead P flash_otp_read).data[0]? = some 0x01)
    (hc : (variantRead P flash_otp_read).data[1]? = some c)
    (hb : (variantRead P flash_otp_read).data[2]? = some b) :
    device_variant_init P flash_otp_read s = some ⟨c, decide (b = 1), true⟩ := by
  rw [variantRead_eq] at hres htag hc hb
  simp [device_variant_init, device_variant_0x01, hres, htag, hc, hb]

/-- A read that failed leaves the statics alone. -/
theorem init_of_failed (P : Platform) (flash_otp_read : OtpReader) (s : VariantState)
    (hres : (variantRead P flash_otp_read).result ≠ P.sectrue) :
    device_variant_init P flash_otp_read s = some s := by
  rw [variantRead_eq] at hres
  have h : ¬ P.sectrue = (flash_otp_read P.FLASH_OTP_BLOCK_DEVICE_VARIANT 0
      P.FLASH_OTP_BLOCK_SIZE).result := fun e => hres e.symm
  simp [device_variant_init, h]

/-- A successful read whose first byte is not `0x01` leaves the statics alone. -/
theorem init_of_other_tag (P : Platform) (flash_otp_read : OtpReader) (s : VariantState)
    (tag : uint8_t)
    (htag : (variantRead P flash_otp_read).data[0]? = some tag) (hne : tag ≠ 0x01) :
    device_variant_init P flash_otp_read s = some s := by
  rw [variantRead_eq] at htag
  simp [device_variant_init, htag, hne]

/-- A block of at least three bytes has bytes 1 and 2. -/
theorem bytes_of_length (data : List uint8_t) (hlen : 3 ≤ data.length) :
    ∃ c b, data[1]? = some c ∧ data[2]? = some b :=
  ⟨data[1], data[2], List.getElem?_eq_getElem (by omega), List.getElem?_eq_getElem (by omega)⟩

/-- A skipped read leaves the statics alone. -/
theorem init_of_skipped (P : Platform) (flash_otp_read : OtpReader) (s : VariantState)
    (h : (variantRead P flash_otp_read).skipped P = true) :
    device_variant_init P flash_otp_read s = some s := by
  unfold OtpRead.skipped at h
  rcases Bool.or_eq_true _ _ |>.mp h with h1 | h2
  · exact init_of_failed P flash_otp_read s (by simpa using h1)
  · cases h0 : (variantRead P flash_otp_read).data[0]? with
    | none => simp [h0] at h2
    | some tag =>
      rw [h0] at h2
      exact init_of_other_tag P flash_otp_read s tag h0 (by simpa using h2)

/-- Every returning `device_variant_init` either left the statics alone or decoded a
recognised block into all three of them. -/
theorem init_cases (P : Platform) (flash_otp_read : OtpReader) (s s' : VariantState)
    (h : device_variant_init P flash_otp_read s = some s') :
    s' = s ∨ ∃ c b, (variantRead P flash_otp_read).result = P.sectrue ∧
      (variantRead P flash_otp_read).data[0]? = some 0x01 ∧
      (variantRead P flash_otp_read).data[1]? = some c ∧
      (variantRead P flash_otp_read).data[2]? = some b ∧
      s' = ⟨c, decide (b = 1), true⟩ := by
  by_cases hres : (variantRead P flash_otp_read).result = P.sectrue
  · cases h0 : (variantRead P flash_otp_read).data[0]? with
    | none =>
      rw [variantRead_eq] at hres h0
      simp [device_variant_init, hres, h0] at h
    | some tag =>
      by_cases ht : tag = 0x01
      · subst ht
        cases h1 : (variantRead P flash_otp_read).data[1]? with
        | none =>
          rw [variantRead_eq] at hres h0 h1
          simp [device_variant_init, device_variant_0x01, hres, h0, h1] at h
        | some c =>
          cases h2 : (variantRead P flash_otp_read).data[2]? with
          | none =>
            rw [variantRead_eq] at hres h0 h1 h2
            simp [device_variant_init, device_variant_0x01, hres, h0, h1, h2] at h
          | some b =>
            rw [init_of_recognized P flash_otp_read s c b hres h0 h1 h2] at h
            exact Or.inr ⟨c, b, hres, rfl, rfl, rfl, (Option.some.inj h).symm⟩
      · rw [init_of_other_tag P flash_otp_read s tag h0 ht] at h
        exact Or.inl (Option.some.inj h).symm
  · rw [init_of_failed P flash_otp_read s hres] at h
    exact Or.inl (Option.some.inj h).symm

/-! ## Shared lemmas about call sequences -/

/-- A getter call returns the state it was given. -/
theorem exec_of_getter (P : Platform) (c : Call) (s : VariantState)
    (h : c.isGetter = true) : c.exec P s = some s := by
  cases c <;> simp_all [Call.isGetter, Call.exec, device_variant_present,
    device_variant_get_color, device_variant_get_btconly]

/-- A call that skips returns the state it was given. -/
theorem exec_of_skips (P : Platform) (c : Call) (s : VariantState)
    (h : c.skips P = true) : c.exec P s = some s := by
  cases c with
  | device_variant_init rd => exact init_of_skipped P rd s h
  | device_variant_present => rfl
  | device_variant_get_color => rfl
  | device_variant_get_btconly => rfl

/-- Every returning call either left the statics alone or set `device_variant_ok`. -/
theorem exec_cases (P : Platform) (c : Call) (s s' : VariantState)
    (h : c.exec P s = some s') :
    s' = s ∨ s'.device_variant_ok = true := by
  cases c with
  | device_variant_init rd =>
    rcases init_cases P rd s s' h with h1 | ⟨c, b, _, _, _, _, h1⟩
    · exact Or.inl h1
    · exact Or.inr (by rw [h1])
  | device_variant_present => exact Or.inl (Option.some.inj h).symm
  | device_variant_get_color => exact Or.inl (Option.some.inj h).symm
  | device_variant_get_btconly => exact Or.inl (Option.some.inj h).symm

/-- Unfolding of `run` on a non-empty sequence whose first call returns. -/
theorem run_cons_of_exec (P : Platform) (c : Call) (cs : List Call) (s s1 : VariantState)
    (h : c.exec P s = some s1) : run P (c :: cs) s = run P cs s1 := by
  simp [run, h]

/-- A returning run of a non-empty sequence passes through the state after its first call. -/
theorem run_cons_some (P : Platform) (c : Call) (cs : List Call) (s s' : VariantState)
    (h : run P (c :: cs) s = some s') :
    ∃ s1, c.exec P s = some s1 ∧ run P cs s1 = some s' := by
  cases h1 : c.exec P s with
  | none => simp [run, h1] at h
  | some s1 => exact ⟨s1, rfl, by rw [run_cons_of_exec P c cs s s1 h1] at h; exact h⟩

/-- A sequence of calls that all skip returns the state it was given. -/
theorem run_of_skips (P : Platform) (calls : List Call) (s : VariantState)
    (h : ∀ c ∈ calls, c.skips P = true) : run P calls s = some s := by
  induction calls with
  | nil => rfl
  | cons c cs ih =>
    rw [run_cons_of_exec P c cs s s (exec_of_skips P c s (h c (List.mem_cons_self c cs)))]
    exact ih (fun x hx => h x (List.mem_cons_of_mem c hx))

/-- Once `device_variant_ok` is set, every returning run keeps it set. -/
theorem run_keeps_ok (P : Platform) (calls : List Call) (s s' : VariantState)
    (h : run P calls s = some s') (hok : s.device_variant_ok = true) :
    s'.device_variant_ok = true := by
  induction calls generalizing s with
  | nil => rw [← Option.some.inj h]; exact hok
  | cons c cs ih =>
    obtain ⟨s1, h1, h2⟩ := run_cons_some P c cs s s' h
    refine ih s1 h2 ?_
    rcases exec_cases P c s s1 h1 with e | e
    · rw [e]; exact hok
    · exact e

/-- While `device_variant_ok` is clear the other two statics hold their initial values;
every returning run keeps that true. -/
theorem run_keeps_defaults (P : Platform) (calls : List Call) (s s' : VariantState)
    (h : run P calls s = some s')
    (hinv : s.device_variant_ok = false →
      s.device_variant_color = 0 ∧ s.device_variant_btconly = false) :
    s'.device_variant_ok = false →
      s'.device_variant_color = 0 ∧ s'.device_variant_btconly = false := by
  induction calls generalizing s with
  | nil => rw [← Option.some.inj h]; exact hinv
  | cons c cs ih =>
    obtain ⟨s1, h1, h2⟩ := run_cons_some P c cs s s' h
    refine ih s1 h2 ?_
    rcases exec_cases P c s s1 h1 with e | e
    · rw [e]; exact hinv
    · intro hf; rw [e] at hf; cases hf

/-! ## Decoding a single record -/

/-- Claim C1: for every prior cached state and every successfully read block (of at least
the three bytes the decoder uses) whose byte 0 is `0x01`, `device_variant_init` returns,
afterwards `device_variant_present()` is true and `device_variant_get_color()` is exactly
byte 1 of the block, whichever of the 256 byte values `c` that is. -/
theorem init_recognized_present_color (P : Platform) (flash_otp_read : OtpReader)
    (s : VariantState) (c : uint8_t)
    (hres : (variantRead P flash_otp_read).result = P.sectrue)
    (htag : (variantRead P flash_otp_read).data[0]? = some 0x01)
    (hcol : (variantRead P flash_otp_read).data[1]? = some c)
    (hlen : 3 ≤ (variantRead P flash_otp_read).data.length) :
    ∃ s', device_variant_init P flash_otp_read s = some s' ∧
      (device_variant_present s').1 = true ∧ (device_variant_get_color s').1 = c := by
  obtain ⟨c', b, hc', hb⟩ := bytes_of_length _ hlen
  have hcc : c' = c := Option.some.inj (hc'.symm.trans hcol)
  subst hcc
  exact ⟨_, init_of_recognized P flash_otp_read s c' b hres htag hc' hb, rfl, rfl⟩

/-- The block `[0x01, 0x2A, 0x01, 0, ...]` gives present = true and color = 42. -/
theorem init_recognized_present_color_witness :
    ∃ s', device_variant_init demoPlatform (otpServing demoPlatform readTeal)
        VariantState.boot = some s' ∧
      (device_variant_present s').1 = true ∧ (device_variant_get_color s').1 = 42 :=
  init_recognized_present_color demoPlatform (otpServing demoPlatform readTeal)
    VariantState.boot 42 (by decide) (by decide) (by decide) (by decide)

/-- Claim C2: for every successfully read block (of at least three bytes) whose byte 0 is
`0x01`, `device_variant_init` returns and afterwards `device_variant_get_btconly()` is true
if and only if byte 2 of the block is exactly 1. -/
theorem init_recognized_btconly_iff (P : Platform) (flash_otp_read : OtpReader)
    (s : VariantState)
    (hres : (variantRead P flash_otp_read).result = P.sectrue)
    (htag : (variantRead P flash_otp_read).data[0]? = some 0x01)
    (hlen : 3 ≤ (variantRead P flash_otp_read).data.length) :
    ∃ s', device_variant_init P flash_otp_read s = some s' ∧
      ((device_variant_get_btconly s').1 = true ↔
        (variantRead P flash_otp_read).data[2]? = some 1) := by
  obtain ⟨c, b, hc, hb⟩ := bytes_of_length _ hlen
  refine ⟨_, init_of_recognized P flash_otp_read s c b hres htag hc hb, ?_⟩
  simp [device_variant_get_btconly, hb]

/-- The block `[0x01, 0x00, 0x02, 0, ...]` has byte 2 equal to 2 and gives btconly = false. -/
theorem init_recognized_btconly_iff_witness :
    (variantRead demoPlatform (otpServing demoPlatform readFlagTwo)).data[2]? = some 2 ∧
    ∃ s', device_variant_init demoPlatform (otpServing demoPlatform readFlagTwo)
        VariantState.boot = some s' ∧
      (device_variant_get_btconly s').1 = false := by
  obtain ⟨s', h, hiff⟩ := init_recognized_btconly_iff demoPlatform
    (otpServing demoPlatform readFlagTwo) VariantState.boot (by decide) (by decide) (by decide)
  refine ⟨by decide, s', h, ?_⟩
  cases hb : (device_variant_get_btconly s').1 with
  | false => rfl
  | true => exact absurd (hiff.mp hb) (by decide)

/-- Claim C3: starting from the statics' initial values, a successful read of a block
whose byte 0 is anything but `0x01` makes `device_variant_init` return with
`device_variant_present()` false, `device_variant_get_color()` 0 and
`device_variant_get_btconly()` false, whatever the other bytes are. -/
theorem init_other_tag_from_boot (P : Platform) (flash_otp_read : OtpReader) (tag : uint8_t)
    (hres : (variantRead P flash_otp_read).result = P.sectrue)
    (htag : (variantRead P flash_otp_read).data[0]? = some tag) (hne : tag ≠ 0x01) :
    ∃ s', device_variant_init P flash_otp_read VariantState.boot = some s' ∧
      (device_variant_present s').1 = false ∧ (device_variant_get_color s').1 = 0 ∧
      (device_variant_get_btconly s').1 = false := by
  rw [variantRead_eq] at hres htag
  refine ⟨VariantState.boot, ?_, rfl, rfl, rfl⟩
  simp [device_variant_init, hres, htag, hne]

/-- The block `[0x02, 0x2A, 0x01, 0, ...]` is read successfully and leaves the defaults. -/
theorem init_other_tag_from_boot_witness :
    (variantRead demoPlatform (otpServing demoPlatform readTagTwo)).result
        = demoPlatform.sectrue ∧
    ∃ s', device_variant_init demoPlatform (otpServing demoPlatform readTagTwo)
        VariantState.boot = some s' ∧
      (device_variant_present s').1 = false ∧ (device_variant_get_color s').1 = 0 ∧
      (device_variant_get_btconly s').1 = false :=
  ⟨by decide, init_other_tag_from_boot demoPlatform (otpServing demoPlatform readTagTwo) 2
    (by decide) (by decide) (by decide)⟩

/-- Claim C4: starting from the statics' initial values, when `flash_otp_read` returns
anything other than `sectrue`, `device_variant_init` returns with
`device_variant_present()` false, `device_variant_get_color()` 0 and
`device_variant_get_btconly()` false, whatever the buffer holds. -/
theorem init_failed_from_boot (P : Platform) (flash_otp_read : OtpReader)
    (hres : (variantRead P flash_otp_read).result ≠ P.sectrue) :
    ∃ s', device_variant_init P flash_otp_read VariantState.boot = some s' ∧
      (device_variant_present s').1 = false ∧ (device_variant_get_color s').1 = 0 ∧
      (device_variant_get_btconly s').1 = false :=
  ⟨_, init_of_failed P flash_otp_read VariantState.boot hres, rfl, rfl, rfl⟩

/-- A failed read whose buffer holds `[0x01, 0x2A, 0x01, 0, ...]` leaves the defaults. -/
theorem init_failed_from_boot_witness :
    (variantRead demoPlatform (otpServing demoPlatform readFailed)).data[1]? = some 42 ∧
    ∃ s', device_variant_init demoPlatform (otpServing demoPlatform readFailed)
        VariantState.boot = some s' ∧
      (device_variant_present s').1 = false ∧ (device_variant_get_color s').1 = 0 ∧
      (device_variant_get_btconly s').1 = false :=
  ⟨by decide, init_failed_from_boot demoPlatform (otpServing demoPlatform readFailed)
    (by decide)⟩

/-- Claim C5: with the statics at their initial values, before any
`device_variant_init()`, `device_variant_present()` returns false,
`device_variant_get_color()` returns 0 and `device_variant_get_btconly()` returns false. -/
theorem getters_at_boot :
    (device_variant_present VariantState.boot).1 = false ∧
    (device_variant_get_color VariantState.boot).1 = 0 ∧
    (device_variant_get_btconly VariantState.boot).1 = false :=
  ⟨rfl, rfl, rfl⟩

/-! ## Invariants of call sequences -/

/-- Claim C6: in every state reached from the statics' initial values by any sequence of
`device_variant_init()` calls (any driver behaviour per call) and getter calls, if
`device_variant_present()` is false then `device_variant_get_color()` is 0 and
`device_variant_get_btconly()` is false. -/
theorem absent_reads_defaults (P : Platform) (calls : List Call) (s : VariantState)
    (hrun : run P calls VariantState.boot = some s)
    (habsent : (device_variant_present s).1 = false) :
    (device_variant_get_color s).1 = 0 ∧ (device_variant_get_btconly s).1 = false :=
  run_keeps_defaults P calls VariantState.boot s hrun (fun _ => ⟨rfl, rfl⟩) habsent

/-- After a failed read, a getter, a read with tag `0x02` and another getter the variant
is absent and reads as the defaults. -/
theorem absent_reads_defaults_witness :
    run demoPlatform
        [Call.device_variant_init (otpServing demoPlatform readFailed),
         Call.device_variant_get_color,
         Call.device_variant_init (otpServing demoPlatform readTagTwo),
         Call.device_variant_present] VariantState.boot = some VariantState.boot ∧
    (device_variant_get_color VariantState.boot).1 = 0 ∧
    (device_variant_get_btconly VariantState.boot).1 = false :=
  ⟨by decide, absent_reads_defaults demoPlatform
    [Call.device_variant_init (otpServing demoPlatform readFailed),
     Call.device_variant_get_color,
     Call.device_variant_init (otpServing demoPlatform readTagTwo),
     Call.device_variant_present] VariantState.boot (by decide) (by decide)⟩

/-- Claim C7: the present flag is monotone.  From any state in which
`device_variant_present()` returns true, every sequence of `device_variant_init()` calls
(any driver behaviour per call) and getter calls ends in a state in which
`device_variant_present()` returns true: the flag never goes from true back to false. -/
theorem present_monotone (P : Platform) (calls : List Call) (s s' : VariantState)
    (hpresent : (device_variant_present s).1 = true)
    (hrun : run P calls s = some s') :
    (device_variant_present s').1 = true :=
  run_keeps_ok P calls s s' hrun hpresent

/-- A decoded variant stays present through a failed read, a read with an unknown tag and
a second recognised read. -/
theorem present_monotone_witness :
    run demoPlatform
        [Call.device_variant_init (otpServing demoPlatform readFailed),
         Call.device_variant_init (otpServing demoPlatform readTagTwo),
         Call.device_variant_present,
         Call.device_variant_init (otpServing demoPlatform readSeven)]
        ⟨42, true, true⟩ = some ⟨7, false, true⟩ ∧
    (device_variant_present ⟨7, false, true⟩).1 = true :=
  ⟨by decide, present_monotone demoPlatform
    [Call.device_variant_init (otpServing demoPlatform readFailed),
     Call.device_variant_init (otpServing demoPlatform readTagTwo),
     Call.device_variant_present,
     Call.device_variant_init (otpServing demoPlatform readSeven)]
    ⟨42, true, true⟩ ⟨7, false, true⟩ (by decide) (by decide)⟩

/-! ## Repeated initialisation -/

/-- Claim C8, as stated, fails: with color 42 / btconly / present cached, a
`device_variant_init()` whose read fails keeps those values, while the same read on the
initial statics gives the defaults; so does a successful read with the unknown tag `0x02`. -/
theorem init_keeps_cache_counterexample :
    device_variant_init demoPlatform (otpServing demoPlatform readFailed) ⟨42, true, true⟩
      = some ⟨42, true, true⟩ ∧
    device_variant_init demoPlatform (otpServing demoPlatform readFailed) VariantState.boot
      = some ⟨0, false, false⟩ ∧
    device_variant_init demoPlatform (otpServing demoPlatform readTagTwo) ⟨42, true, true⟩
      = some ⟨42, true, true⟩ ∧
    device_variant_init demoPlatform (otpServing demoPlatform readTagTwo) VariantState.boot
      = some ⟨0, false, false⟩ := by
  decide

/-- Claim C8, amended: for every prior cached state and every read outcome with a block of
at least three bytes, `device_variant_init()` returns, and so does the same call on the
initial statics; when the read succeeded with byte 0 equal to `0x01` the two resulting
states are equal (the cache is overwritten, the result depends on the read alone),
otherwise the call leaves the previously cached state in place. -/
theorem init_overwrites_iff_recognized (P : Platform) (flash_otp_read : OtpReader)
    (s : VariantState)
    (hlen : 3 ≤ (variantRead P flash_otp_read).data.length) :
    ∃ s' fresh, device_variant_init P flash_otp_read s = some s' ∧
      device_variant_init P flash_otp_read VariantState.boot = some fresh ∧
      s' = if (variantRead P flash_otp_read).recognized P = true then fresh else s := by
  obtain ⟨c, b, hc, hb⟩ := bytes_of_length _ hlen
  by_cases hrec : (variantRead P flash_otp_read).recognized P = true
  · have h := hrec
    simp only [OtpRead.recognized, Bool.and_eq_true, beq_iff_eq] at h
    refine ⟨_, _, init_of_recognized P flash_otp_read s c b h.1 h.2 hc hb,
      init_of_recognized P flash_otp_read VariantState.boot c b h.1 h.2 hc hb, ?_⟩
    rw [if_pos hrec]
  · have hsk : (variantRead P flash_otp_read).skipped P = true := by
      have h0 : ∃ t, (variantRead P flash_otp_read).data[0]? = some t :=
        ⟨_, List.getElem?_eq_getElem (by omega)⟩
      obtain ⟨t, ht⟩ := h0
      simp only [OtpRead.recognized, ht, Bool.and_eq_true, beq_iff_eq, Option.some.injEq,
        not_and] at hrec
      simp only [OtpRead.skipped, ht, Bool.or_eq_true, bne_iff_ne, ne_eq]
      by_cases hr : (variantRead P flash_otp_read).result = P.sectrue
      · exact Or.inr (hrec hr)
      · exact Or.inl hr
    refine ⟨_, _, init_of_skipped P flash_otp_read s hsk,
      init_of_skipped P flash_otp_read VariantState.boot hsk, ?_⟩
    rw [if_neg hrec]

/-- With 42 / true / true cached, reading the block `[0x01, 0x07, 0x00, 0, ...]` gives the
state a fresh store would get, 7 / false / true. -/
theorem init_overwrites_iff_recognized_witness :
    (variantRead demoPlatform (otpServing demoPlatform readSeven)).recognized demoPlatform
      = true ∧
    device_variant_init demoPlatform (otpServing demoPlatform readSeven) ⟨42, true, true⟩
      = some ⟨7, false, true⟩ ∧
    ∃ s' fresh,
      device_variant_init demoPlatform (otpServing demoPlatform readSeven) ⟨42, true, true⟩
        = some s' ∧
      device_variant_init demoPlatform (otpServing demoPlatform readSeven) VariantState.boot
        = some fresh ∧
      s' = if (variantRead demoPlatform (otpServing demoPlatform readSeven)).recognized
          demoPlatform = true then fresh else ⟨42, true, true⟩ :=
  ⟨by decide, by decide, init_overwrites_iff_recognized demoPlatform
    (otpServing demoPlatform readSeven) ⟨42, true, true⟩ (by decide)⟩

/-- Claim C9, as stated, fails: a first `device_variant_init()` sets color 42 and
btconly true, and a second one, meeting the block `[0x01, 0x07, 0x00, 0, ...]`, changes
them to 7 and false. -/
theorem color_btconly_rewritten_counterexample :
    run demoPlatform [Call.device_variant_init (otpServing demoPlatform readTeal)]
      VariantState.boot = some ⟨42, true, true⟩ ∧
    run demoPlatform [Call.device_variant_init (otpServing demoPlatform readSeven)]
      ⟨42, true, true⟩ = some ⟨7, false, true⟩ ∧
    (device_variant_get_color ⟨42, true, true⟩).1 ≠ (device_variant_get_color ⟨7, false, true⟩).1 ∧
    (device_variant_get_btconly ⟨42, true, true⟩).1
      ≠ (device_variant_get_btconly ⟨7, false, true⟩).1 := by
  decide

/-- Claim C9, amended: once a `device_variant_init()` call has set color and btconly from
a recognised block `0x01, c, b, ...`, no later sequence of calls whose reads fail or whose
byte 0 is not `0x01` (getter calls included) changes what `device_variant_get_color()` and
`device_variant_get_btconly()` return: they stay `c` and `b == 1`. -/
theorem color_btconly_kept_until_recognized (P : Platform) (flash_otp_read : OtpReader)
    (later : List Call) (s : VariantState) (c b : uint8_t)
    (hres : (variantRead P flash_otp_read).result = P.sectrue)
    (htag : (variantRead P flash_otp_read).data[0]? = some 0x01)
    (hc : (variantRead P flash_otp_read).data[1]? = some c)
    (hb : (variantRead P flash_otp_read).data[2]? = some b)
    (hlater : ∀ x ∈ later, x.skips P = true) :
    ∃ s1 s', run P [Call.device_variant_init flash_otp_read] s = some s1 ∧
      run P (Call.device_variant_init flash_otp_read :: later) s = some s' ∧
      (device_variant_get_color s1).1 = c ∧
      (device_variant_get_btconly s1).1 = decide (b = 1) ∧
      (device_variant_get_color s').1 = (device_variant_get_color s1).1 ∧
      (device_variant_get_btconly s').1 = (device_variant_get_btconly s1).1 := by
  have hinit := init_of_recognized P flash_otp_read s c b hres htag hc hb
  have hexec : (Call.device_variant_init flash_otp_read).exec P s
      = some ⟨c, decide (b = 1), true⟩ := hinit
  refine ⟨⟨c, decide (b = 1), true⟩, ⟨c, decide (b = 1), true⟩, ?_, ?_, rfl, rfl, rfl, rfl⟩
  · rw [run_cons_of_exec P _ [] s _ hexec]; rfl
  · rw [run_cons_of_exec P _ later s _ hexec]
    exact run_of_skips P later _ hlater

/-- Color 42 and btconly true, set from `[0x01, 0x2A, 0x01, 0, ...]`, survive a failed
read, a getter call and a read with the unknown tag `0x02`. -/
theorem color_btconly_kept_until_recognized_witness :
    run demoPlatform
      [Call.device_variant_init (otpServing demoPlatform readTeal),
       Call.device_variant_init (otpServing demoPlatform readFailed),
       Call.device_variant_get_btconly,
       Call.device_variant_init (otpServing demoPlatform readTagTwo)]
      VariantState.boot = some ⟨42, true, true⟩ ∧
    ∃ s1 s', run demoPlatform [Call.device_variant_init (otpServing demoPlatform readTeal)]
        VariantState.boot = some s1 ∧
      run demoPlatform
        [Call.device_variant_init (otpServing demoPlatform readTeal),
         Call.device_variant_init (otpServing demoPlatform readFailed),
         Call.device_variant_get_btconly,
         Call.device_variant_init (otpServing demoPlatform readTagTwo)]
        VariantState.boot = some s' ∧
      (device_variant_get_color s1).1 = 42 ∧
      (device_variant_get_btconly s1).1 = decide ((1 : uint8_t) = 1) ∧
      (device_variant_get_color s').1 = (device_variant_get_color s1).1 ∧
      (device_variant_get_btconly s').1 = (device_variant_get_btconly s1).1 :=
  ⟨by decide, color_btconly_kept_until_recognized demoPlatform
    (otpServing demoPlatform readTeal)
    [Call.device_variant_init (otpServing demoPlatform readFailed),
     Call.device_variant_get_btconly,
     Call.device_variant_init (otpServing demoPlatform readTagTwo)]
    VariantState.boot 42 1 (by decide) (by decide) (by decide) (by decide) (by decide)⟩

/-! ## Getters -/

/-- Claim C10: the three getters are pure reads.  In every state each of
`device_variant_present()`, `device_variant_get_color()` and
`device_variant_get_btconly()` hands back the state it was given, and any sequence made of
getter calls only, in any order and of any length, returns and ends in the state it
started from, so the getters return the same values after it as before it. -/
theorem getters_pure (P : Platform) (calls : List Call) (s : VariantState)
    (hget : ∀ c ∈ calls, c.isGetter = true) :
    (device_variant_present s).2 = s ∧ (device_variant_get_color s).2 = s ∧
    (device_variant_get_btconly s).2 = s ∧
    ∃ s', run P calls s = some s' ∧ s' = s ∧
      (device_variant_present s').1 = (device_variant_present s).1 ∧
      (device_variant_get_color s').1 = (device_variant_get_color s).1 ∧
      (device_variant_get_btconly s').1 = (device_variant_get_btconly s).1 := by
  refine ⟨rfl, rfl, rfl, s, ?_, rfl, rfl, rfl, rfl⟩
  induction calls with
  | nil => rfl
  | cons c cs ih =>
    rw [run_cons_of_exec P c cs s s (exec_of_getter P c s (hget c (List.mem_cons_self c cs)))]
    exact ih (fun x hx => hget x (List.mem_cons_of_mem c hx))

/-- Five getter calls after one initialisation leave 42 / true / true as it was. -/
theorem getters_pure_witness :
    run demoPlatform [Call.device_variant_init (otpServing demoPlatform readTeal)]
      VariantState.boot = some ⟨42, true, true⟩ ∧
    ∃ s', run demoPlatform
        [Call.device_variant_get_color, Call.device_variant_present,
         Call.device_variant_get_btconly, Call.device_variant_get_color,
         Call.device_variant_present] ⟨42, true, true⟩ = some s' ∧ s' = ⟨42, true, true⟩ :=
  ⟨by decide,
    (getters_pure demoPlatform
      [Call.device_variant_get_color, Call.device_variant_present,
       Call.device_variant_get_btconly, Call.device_variant_get_color,
       Call.device_variant_present] ⟨42, true, true⟩ (by decide)).2.2.2.imp
      (fun _ h => ⟨h.1, h.2.1⟩)⟩

/-! ## Shared lemmas about the instrumented execution -/

/-- With a failed read or a block of at least three bytes `device_variant_init` returns. -/
theorem init_returns (P : Platform) (flash_otp_read : OtpReader) (s : VariantState)
    (h : (variantRead P flash_otp_read).result ≠ P.sectrue ∨
      3 ≤ (variantRead P flash_otp_read).data.length) :
    ∃ s', device_variant_init P flash_otp_read s = some s' := by
  by_cases hres : (variantRead P flash_otp_read).result = P.sectrue
  · have hlen : 3 ≤ (variantRead P flash_otp_read).data.length := by
      rcases h with h | h
      · exact absurd hres h
      · exact h
    obtain ⟨c, b, hc, hb⟩ := bytes_of_length _ hlen
    have h0 : (variantRead P flash_otp_read).data[0]?
        = some ((variantRead P flash_otp_read).data[0]) :=
      List.getElem?_eq_getElem (by omega)
    by_cases ht : (variantRead P flash_otp_read).data[0] = 0x01
    · rw [ht] at h0
      exact ⟨_, init_of_recognized P flash_otp_read s c b hres h0 hc hb⟩
    · exact ⟨_, init_of_other_tag P flash_otp_read s _ h0 ht⟩
  · exact ⟨_, init_of_failed P flash_otp_read s hres⟩

/-- After `device_variant_init` the device is in the state that the single request for
the device-variant block leaves it in, on every path. -/
theorem init_on_device (P : Platform) {σ : Type} (flash_otp_read : OtpDevice σ) (dev : σ)
    (s : VariantState) :
    (device_variant_init_on P flash_otp_read dev s).2
      = (flash_otp_read dev P.FLASH_OTP_BLOCK_DEVICE_VARIANT 0 P.FLASH_OTP_BLOCK_SIZE).2 := by
  unfold device_variant_init_on
  by_cases hres : P.sectrue
      = (flash_otp_read dev P.FLASH_OTP_BLOCK_DEVICE_VARIANT 0 P.FLASH_OTP_BLOCK_SIZE).1.result
  · cases h0 : (flash_otp_read dev P.FLASH_OTP_BLOCK_DEVICE_VARIANT 0
        P.FLASH_OTP_BLOCK_SIZE).1.data[0]? with
    | none => simp [← hres, h0]
    | some tag =>
      by_cases ht : tag = 0x01
      · simp [← hres, h0, ht]
      · simp [← hres, h0, ht]
  · simp [hres]

/-- The statics after `device_variant_init` against a device are those that
`device_variant_init` computes from the answers the device gives in its current state. -/
theorem init_on_state (P : Platform) {σ : Type} (flash_otp_read : OtpDevice σ) (dev : σ)
    (s : VariantState) :
    (device_variant_init_on P flash_otp_read dev s).1
      = device_variant_init P
          (fun block offset datalen => (flash_otp_read dev block offset datalen).1) s := by
  unfold device_variant_init_on device_variant_init
  by_cases hres : P.sectrue
      = (flash_otp_read dev P.FLASH_OTP_BLOCK_DEVICE_VARIANT 0 P.FLASH_OTP_BLOCK_SIZE).1.result
  · cases h0 : (flash_otp_read dev P.FLASH_OTP_BLOCK_DEVICE_VARIANT 0
        P.FLASH_OTP_BLOCK_SIZE).1.data[0]? with
    | none => simp [← hres, h0]
    | some tag =>
      by_cases ht : tag = 0x01
      · simp [← hres, h0, ht]
      · simp [← hres, h0, ht]
  · simp [hres]

/-! ## The driver call and the buffer -/

/-- Claim C11: every `device_variant_init()` call, on every path (failed read, unknown
tag, recognised block, whatever the statics hold), calls `flash_otp_read` exactly once,
with block `FLASH_OTP_BLOCK_DEVICE_VARIANT`, offset 0 and length `FLASH_OTP_BLOCK_SIZE`.
Run against any device with state, the call leaves the device in the state that this one
request leaves it in; run against a device that records its requests and may answer each
one differently, the record grows by exactly that request, so there is no second read,
no retry and no other block or offset.  The statics it returns are those of
`device_variant_init` given the device's first answers. -/
theorem init_calls_driver_once (P : Platform) {σ : Type} (flash_otp_read : OtpDevice σ)
    (dev : σ) (answer : List OtpRequest → OtpRequest → OtpRead) (log : List OtpRequest)
    (s : VariantState) :
    (device_variant_init_on P flash_otp_read dev s).2
      = (flash_otp_read dev P.FLASH_OTP_BLOCK_DEVICE_VARIANT 0 P.FLASH_OTP_BLOCK_SIZE).2 ∧
    (device_variant_init_on P (otpRecording answer) log s).2
      = log ++ [⟨P.FLASH_OTP_BLOCK_DEVICE_VARIANT, 0, P.FLASH_OTP_BLOCK_SIZE⟩] ∧
    (device_variant_init_on P flash_otp_read dev s).1
      = device_variant_init P
          (fun block offset datalen => (flash_otp_read dev block offset datalen).1) s :=
  ⟨init_on_device P flash_otp_read dev s, init_on_device P (otpRecording answer) log s,
    init_on_state P flash_otp_read dev s⟩

/-- A device that fails its first request and would serve a recognised block to a second
one is asked once, for `(3, 0, 32)`: the statics keep their initial values.  A device that
serves tag `0x02` first and a recognised block to any further request is asked once too. -/
theorem init_calls_driver_once_witness :
    device_variant_init_on demoPlatform (otpRecording answerSecondTime) [] VariantState.boot
      = (some VariantState.boot, [⟨3, 0, 32⟩]) ∧
    device_variant_init_on demoPlatform (otpRecording answerTagTwoFirst) [] VariantState.boot
      = (some VariantState.boot, [⟨3, 0, 32⟩]) ∧
    (device_variant_init_on demoPlatform (otpRecording answerSecondTime) [⟨3, 0, 32⟩]
        VariantState.boot).1 = some ⟨42, true, true⟩ ∧
    (device_variant_init_on demoPlatform (otpRecording answerSecondTime) [⟨3, 0, 32⟩]
        VariantState.boot).2
      = [⟨3, 0, 32⟩] ++ [⟨demoPlatform.FLASH_OTP_BLOCK_DEVICE_VARIANT, 0,
          demoPlatform.FLASH_OTP_BLOCK_SIZE⟩] :=
  ⟨by decide, by decide, by decide,
    (init_calls_driver_once demoPlatform (otpRecording answerSecondTime) [⟨3, 0, 32⟩]
      answerSecondTime [⟨3, 0, 32⟩] VariantState.boot).2.1⟩

/-- Running a concatenation is running the first part and then the second. -/
theorem run_append (P : Platform) (xs ys : List Call) (s : VariantState) :
    run P (xs ++ ys) s = (run P xs s).bind (run P ys) := by
  induction xs generalizing s with
  | nil => rfl
  | cons c cs ih =>
    cases h : c.exec P s with
    | none => simp [run, h]
    | some s1 =>
      rw [List.cons_append, run_cons_of_exec P c (cs ++ ys) s s1 h,
        run_cons_of_exec P c cs s s1 h]
      exact ih s1

/-- A sequence of initialisations whose reads each failed or filled at least three bytes
returns. -/
theorem run_inits_returns (P : Platform) (readers : List OtpReader) (s : VariantState)
    (h : ∀ rd ∈ readers, (variantRead P rd).result ≠ P.sectrue ∨
      3 ≤ (variantRead P rd).data.length) :
    ∃ s', run P (readers.map Call.device_variant_init) s = some s' := by
  induction readers generalizing s with
  | nil => exact ⟨s, rfl⟩
  | cons rd rds ih =>
    obtain ⟨s1, h1⟩ := init_returns P rd s (h rd (List.mem_cons_self rd rds))
    obtain ⟨s', h'⟩ := ih s1 (fun x hx => h x (List.mem_cons_of_mem rd hx))
    refine ⟨s', ?_⟩
    rw [List.map_cons, run_cons_of_exec P (Call.device_variant_init rd) _ s s1 h1]
    exact h'

/-- A read that failed or filled at least three bytes, and is not recognised, is skipped. -/
theorem skipped_of_not_recognized (P : Platform) (r : OtpRead)
    (h : r.result ≠ P.sectrue ∨ 3 ≤ r.data.length) (hrec : r.recognized P = false) :
    r.skipped P = true := by
  by_cases hres : r.result = P.sectrue
  · have hlen : 3 ≤ r.data.length := by
      rcases h with h | h
      · exact absurd hres h
      · exact h
    have h0 : r.data[0]? = some (r.data[0]) := List.getElem?_eq_getElem (by omega)
    have hne : r.data[0] ≠ 1 := by
      intro he
      rw [he] at h0
      simp [OtpRead.recognized, hres, h0] at hrec
    simp [OtpRead.skipped, h0, hne]
  · simp [OtpRead.skipped, hres]

/-! ## Repeated and unrecognised reads -/

/-- Claim C12: `device_variant_init()` is idempotent against a stable driver.  For every
prior state and every read outcome, two calls in a row meeting that outcome give exactly
what one call gives; and when the read failed or the block has at least three bytes, the
call returns, so both leave the same cached state. -/
theorem init_twice_eq_once (P : Platform) (flash_otp_read : OtpReader) (s : VariantState) :
    run P [Call.device_variant_init flash_otp_read, Call.device_variant_init flash_otp_read] s
      = run P [Call.device_variant_init flash_otp_read] s ∧
    ((variantRead P flash_otp_read).result ≠ P.sectrue ∨
        3 ≤ (variantRead P flash_otp_read).data.length →
      ∃ s1, run P [Call.device_variant_init flash_otp_read] s = some s1 ∧
        run P [Call.device_variant_init flash_otp_read,
          Call.device_variant_init flash_otp_read] s = some s1) := by
  have key : ∀ s1, device_variant_init P flash_otp_read s = some s1 →
      device_variant_init P flash_otp_read s1 = some s1 := by
    intro s1 h1
    rcases init_cases P flash_otp_read s s1 h1 with e | ⟨c, b, hres, h0, hc, hb, e⟩
    · rw [e] at h1 ⊢; exact h1
    · rw [e]; exact init_of_recognized P flash_otp_read _ c b hres h0 hc hb
  have once : ∀ s1, device_variant_init P flash_otp_read s = some s1 →
      run P [Call.device_variant_init flash_otp_read] s = some s1 := by
    intro s1 h1
    rw [run_cons_of_exec P (Call.device_variant_init flash_otp_read) [] s s1 h1]; rfl
  have twice : ∀ s1, device_variant_init P flash_otp_read s = some s1 →
      run P [Call.device_variant_init flash_otp_read,
        Call.device_variant_init flash_otp_read] s = some s1 := by
    intro s1 h1
    rw [run_cons_of_exec P (Call.device_variant_init flash_otp_read) _ s s1 h1,
      run_cons_of_exec P (Call.device_variant_init flash_otp_read) [] s1 s1 (key s1 h1)]
    rfl
  constructor
  · cases h : device_variant_init P flash_otp_read s with
    | none => simp [run, Call.exec, h]
    | some s1 => rw [once s1 h, twice s1 h]
  · intro hsz
    obtain ⟨s1, h1⟩ := init_returns P flash_otp_read s hsz
    exact ⟨s1, once s1 h1, twice s1 h1⟩

/-- With 42 / true / true cached, one or two initialisations meeting
`[0x01, 0x07, 0x00, 0, ...]` both leave 7 / false / true. -/
theorem init_twice_eq_once_witness :
    run demoPlatform [Call.device_variant_init (otpServing demoPlatform readSeven)]
      ⟨42, true, true⟩ = some ⟨7, false, true⟩ ∧
    ∃ s1, run demoPlatform [Call.device_variant_init (otpServing demoPlatform readSeven)]
        ⟨42, true, true⟩ = some s1 ∧
      run demoPlatform [Call.device_variant_init (otpServing demoPlatform readSeven),
        Call.device_variant_init (otpServing demoPlatform readSeven)]
        ⟨42, true, true⟩ = some s1 :=
  ⟨by decide, (init_twice_eq_once demoPlatform (otpServing demoPlatform readSeven)
    ⟨42, true, true⟩).2 (Or.inr (by decide))⟩

/-- Claim C13: bytes at offset 3 and beyond are ignored.  For every prior state and any
two successful reads whose blocks agree on bytes 0, 1 and 2 (the first block holding at
least those three bytes), `device_variant_init()` returns the same cached state for
both, whatever the remaining bytes are. -/
theorem init_ignores_tail (P : Platform) (readA readB : OtpReader) (s : VariantState)
    (hresA : (variantRead P readA).result = P.sectrue)
    (hresB : (variantRead P readB).result = P.sectrue)
    (hlen : 3 ≤ (variantRead P readA).data.length)
    (h0 : (variantRead P readA).data[0]? = (variantRead P readB).data[0]?)
    (h1 : (variantRead P readA).data[1]? = (variantRead P readB).data[1]?)
    (h2 : (variantRead P readA).data[2]? = (variantRead P readB).data[2]?) :
    ∃ s', device_variant_init P readA s = some s' ∧
      device_variant_init P readB s = some s' := by
  obtain ⟨c, b, hc, hb⟩ := bytes_of_length _ hlen
  have ht : (variantRead P readA).data[0]? = some ((variantRead P readA).data[0]) :=
    List.getElem?_eq_getElem (by omega)
  by_cases h : (variantRead P readA).data[0] = 0x01
  · rw [h] at ht
    exact ⟨_, init_of_recognized P readA s c b hresA ht hc hb,
      init_of_recognized P readB s c b hresB (h0 ▸ ht) (h1 ▸ hc) (h2 ▸ hb)⟩
  · exact ⟨_, init_of_other_tag P readA s _ ht h, init_of_other_tag P readB s _ (h0 ▸ ht) h⟩

/-- The blocks `[0x01, 0x2A, 0x01, 0, 0, ...]` and `[0x01, 0x2A, 0x01, 0xFF, 0xEE, ...]`
differ at byte 3 and give the same state 42 / true / true. -/
theorem init_ignores_tail_witness :
    (variantRead demoPlatform (otpServing demoPlatform readTeal)).data[3]?
      ≠ (variantRead demoPlatform (otpServing demoPlatform readTealTail)).data[3]? ∧
    device_variant_init demoPlatform (otpServing demoPlatform readTeal) VariantState.boot
      = some ⟨42, true, true⟩ ∧
    ∃ s', device_variant_init demoPlatform (otpServing demoPlatform readTeal)
        VariantState.boot = some s' ∧
      device_variant_init demoPlatform (otpServing demoPlatform readTealTail)
        VariantState.boot = some s' :=
  ⟨by decide, by decide, init_ignores_tail demoPlatform (otpServing demoPlatform readTeal)
    (otpServing demoPlatform readTealTail) VariantState.boot
    (by decide) (by decide) (by decide) (by decide) (by decide) (by decide)⟩

/-- Claim C15: for every prior cached state, a `device_variant_init()` whose read fails
and one whose read succeeds with byte 0 other than `0x01` both return and leave the cache
exactly as it was, so present, color and btconly keep their previous values and the two
outcomes give callers the same state. -/
theorem init_noop_when_unrecognized (P : Platform) (readFail readOther : OtpReader)
    (s : VariantState) (tag : uint8_t)
    (hfail : (variantRead P readFail).result ≠ P.sectrue)
    (hres : (variantRead P readOther).result = P.sectrue)
    (htag : (variantRead P readOther).data[0]? = some tag) (hne : tag ≠ 0x01) :
    device_variant_init P readFail s = some s ∧
    device_variant_init P readOther s = some s ∧
    ∀ s', (device_variant_init P readFail s = some s' ∨
        device_variant_init P readOther s = some s') →
      (device_variant_present s').1 = (device_variant_present s).1 ∧
      (device_variant_get_color s').1 = (device_variant_get_color s).1 ∧
      (device_variant_get_btconly s').1 = (device_variant_get_btconly s).1 := by
  have hF := init_of_failed P readFail s hfail
  have hO : device_variant_init P readOther s = some s := by
    rw [variantRead_eq] at hres htag
    simp [device_variant_init, hres, htag, hne]
  refine ⟨hF, hO, ?_⟩
  intro s' h
  have e : s' = s := by
    rcases h with h | h
    · rw [hF] at h; exact (Option.some.inj h).symm
    · rw [hO] at h; exact (Option.some.inj h).symm
  rw [e]
  exact ⟨rfl, rfl, rfl⟩

/-- A decoded variant 42 / true / true survives a failed read and a read with tag `0x02`. -/
theorem init_noop_when_unrecognized_witness :
    device_variant_init demoPlatform (otpServing demoPlatform readFailed) ⟨42, true, true⟩
      = some ⟨42, true, true⟩ ∧
    device_variant_init demoPlatform (otpServing demoPlatform readTagTwo) ⟨42, true, true⟩
      = some ⟨42, true, true⟩ :=
  let h := init_noop_when_unrecognized demoPlatform (otpServing demoPlatform readFailed)
    (otpServing demoPlatform readTagTwo) ⟨42, true, true⟩ 2
    (by decide) (by decide) (by decide) (by decide)
  ⟨h.1, h.2.1⟩

/-- A sequence of initialisations none of which meets a recognised read, each read having
failed or filled at least three bytes, returns the state it was given. -/
theorem run_inits_unrecognized (P : Platform) (readers : List OtpReader) (s : VariantState)
    (hsz : ∀ rd ∈ readers, (variantRead P rd).result ≠ P.sectrue ∨
      3 ≤ (variantRead P rd).data.length)
    (hrec : ∀ rd ∈ readers, (variantRead P rd).recognized P = false) :
    run P (readers.map Call.device_variant_init) s = some s := by
  apply run_of_skips
  intro c hc
  obtain ⟨rd, hrd, rfl⟩ := List.mem_map.mp hc
  exact skipped_of_not_recognized P _ (hsz rd hrd) (hrec rd hrd)

/-- Claim C16: last recognised read wins.  For every finite sequence of
`device_variant_init()` calls from the statics' initial values, each read having failed or
filled at least three bytes, the sequence returns; the final state is the defaults
(false, 0, false) if no call met a successful read with byte 0 equal to `0x01`, and
otherwise has present = true, color = byte 1 and btconly = (byte 2 == 1) of the block of
the last call that did. -/
theorem last_recognized_read_wins (P : Platform) (readers : List OtpReader)
    (hsz : ∀ rd ∈ readers, (variantRead P rd).result ≠ P.sectrue ∨
      3 ≤ (variantRead P rd).data.length) :
    ∃ s', run P (readers.map Call.device_variant_init) VariantState.boot = some s' ∧
      ((∀ rd ∈ readers, (variantRead P rd).recognized P = false) →
        (device_variant_present s').1 = false ∧ (device_variant_get_color s').1 = 0 ∧
        (device_variant_get_btconly s').1 = false) ∧
      (∀ (before : List OtpReader) (last : OtpReader) (after : List OtpReader),
        readers = before ++ last :: after →
        (variantRead P last).recognized P = true →
        (∀ rd ∈ after, (variantRead P rd).recognized P = false) →
        (device_variant_present s').1 = true ∧
        some (device_variant_get_color s').1 = (variantRead P last).data[1]? ∧
        (device_variant_get_btconly s').1
          = decide ((variantRead P last).data[2]? = some 1)) := by
  obtain ⟨s', hrun⟩ := run_inits_returns P readers VariantState.boot hsz
  refine ⟨s', hrun, ?_, ?_⟩
  · intro hrec
    rw [run_inits_unrecognized P readers VariantState.boot hsz hrec] at hrun
    rw [← Option.some.inj hrun]
    exact ⟨rfl, rfl, rfl⟩
  · intro before last after hsplit hlast hafter
    subst hsplit
    have hszB : ∀ rd ∈ before, (variantRead P rd).result ≠ P.sectrue ∨
        3 ≤ (variantRead P rd).data.length :=
      fun rd h => hsz rd (List.mem_append_left _ h)
    have hszL := hsz last (List.mem_append_right _ (List.mem_cons_self last after))
    have hszA : ∀ rd ∈ after, (variantRead P rd).result ≠ P.sectrue ∨
        3 ≤ (variantRead P rd).data.length :=
      fun rd h => hsz rd (List.mem_append_right _ (List.mem_cons_of_mem last h))
    obtain ⟨s0, h0⟩ := run_inits_returns P before VariantState.boot hszB
    have hl := hlast
    simp only [OtpRead.recognized, Bool.and_eq_true, beq_iff_eq] at hl
    have hlen : 3 ≤ (variantRead P last).data.length := by
      rcases hszL with h | h
      · exact absurd hl.1 h
      · exact h
    obtain ⟨c, b, hc, hb⟩ := bytes_of_length _ hlen
    have hexec : (Call.device_variant_init last).exec P s0 = some ⟨c, decide (b = 1), true⟩ :=
      init_of_recognized P last s0 c b hl.1 hl.2 hc hb
    rw [List.map_append, List.map_cons, run_append, h0, Option.some_bind,
      run_cons_of_exec P _ _ s0 _ hexec,
      run_inits_unrecognized P after _ hszA hafter] at hrun
    rw [← Option.some.inj hrun]
    refine ⟨rfl, hc.symm, ?_⟩
    simp [device_variant_get_btconly, hb]

/-- Of six initialisations (failed, `[0x01, 0x2A, 0x01, ...]`, tag `0x02`,
`[0x01, 0x07, 0x00, ...]`, failed, tag `0x02`) the fourth is the last recognised one and
the final state is 7 / false / true. -/
theorem last_recognized_read_wins_witness :
    run demoPlatform
      ([otpServing demoPlatform readFailed, otpServing demoPlatform readTeal,
        otpServing demoPlatform readTagTwo, otpServing demoPlatform readSeven,
        otpServing demoPlatform readFailed, otpServing demoPlatform readTagTwo].map
        Call.device_variant_init) VariantState.boot = some ⟨7, false, true⟩ ∧
    ∃ s', run demoPlatform
        ([otpServing demoPlatform readFailed, otpServing demoPlatform readTeal,
          otpServing demoPlatform readTagTwo, otpServing demoPlatform readSeven,
          otpServing demoPlatform readFailed, otpServing demoPlatform readTagTwo].map
          Call.device_variant_init) VariantState.boot = some s' ∧
      (device_variant_present s').1 = true ∧
      some (device_variant_get_color s').1
        = (variantRead demoPlatform (otpServing demoPlatform readSeven)).data[1]? ∧
      (device_variant_get_btconly s').1
        = decide ((variantRead demoPlatform (otpServing demoPlatform readSeven)).data[2]?
            = some 1) := by
  obtain ⟨s', hrun, _, hlast⟩ := last_recognized_read_wins demoPlatform
    [otpServing demoPlatform readFailed, otpServing demoPlatform readTeal,
     otpServing demoPlatform readTagTwo, otpServing demoPlatform readSeven,
     otpServing demoPlatform readFailed, otpServing demoPlatform readTagTwo] (by decide)
  exact ⟨by decide, s', hrun,
    hlast [otpServing demoPlatform readFailed, otpServing demoPlatform readTeal,
      otpServing demoPlatform readTagTwo] (otpServing demoPlatform readSeven)
      [otpServing demoPlatform readFailed, otpServing demoPlatform readTagTwo]
      rfl (by decide) (by decide)⟩

end DeviceVariant
